import Mathlib

/-
Verification of the advent-of-code-2022 repository (Day 1 calorie grouping
and Day 2 rock-paper-scissors scoring) against its specification.

The Python sources are shallowly embedded: pure functions become Lean
functions, Python exceptions (ValueError, IndexError, KeyError/LookupError)
become Option results, Python dicts become association lists in insertion
order, and file reads are replaced by passing the file contents (or the
list of lines) directly.
-/

/-! ## Python string primitives used by the sources -/

/-- Whitespace characters removed by Python `str.strip()` (ASCII range). -/
def pyIsSpace (c : Char) : Bool :=
  c == ' ' || c == '\t' || c == '\n' || c == '\r' || c == '\x0b' || c == '\x0c'

/-- Model of Python `str.strip()`: drop leading and trailing whitespace. -/
def pystrip (s : String) : String :=
  String.mk (((s.data.dropWhile pyIsSpace).reverse.dropWhile pyIsSpace).reverse)

/-- Worker for `pysplit`. The first argument is fuel; every step consumes at
least one character and one unit of fuel, so fuel equal to the length of the
input string makes the fuel bound unreachable. Structural recursion on the
fuel keeps the definition kernel-reducible. -/
def pysplitAux (sep : List Char) : Nat → List Char → List Char → List (List Char)
  | fuel + 1, c :: rest, acc =>
    if sep ≠ [] ∧ sep.isPrefixOf (c :: rest) then
      acc.reverse :: pysplitAux sep fuel ((c :: rest).drop sep.length) []
    else
      pysplitAux sep fuel rest (c :: acc)
  | _, _, acc => [acc.reverse]

/-- Model of Python `str.split(sep)` for a non-empty separator: split at each
leftmost non-overlapping occurrence of `sep`, keeping empty pieces, so the
result always has at least one element. (Python raises ValueError on an
empty separator; the repository only ever splits on the non-empty delimiters
`" "` and `"\n"`.) -/
def pysplit (sep s : String) : List String :=
  (pysplitAux sep.data s.data.length s.data []).map (fun cs => String.mk cs)

/-- Value of one decimal digit string, used by `pyint`. -/
def pyintDigits (ds : List Char) : Option Int :=
  if ds ≠ [] ∧ ds.all (fun c => c.isDigit) then
    some (ds.foldl (fun a c => a * 10 + ((c.toNat : Int) - 48)) 0)
  else
    none

/-- Model of Python `int(s)` on ASCII inputs: strip whitespace, allow one
optional sign, then require at least one decimal digit; anything else raises
ValueError, modelled as `none`. -/
def pyint (s : String) : Option Int :=
  match (pystrip s).data with
  | '+' :: ds => pyintDigits ds
  | '-' :: ds => (pyintDigits ds).map (fun v => -v)
  | ds => pyintDigits ds

/-- Worker for `pyStr`, fuelled so that it is kernel-reducible; fuel `n + 1`
always suffices since the digit count of `n` is at most `n + 1`. -/
def pyStrAux : Nat → Nat → List Char → List Char
  | 0, _, acc => acc
  | fuel + 1, n, acc =>
    if n < 10 then Nat.digitChar n :: acc
    else pyStrAux fuel (n / 10) (Nat.digitChar (n % 10) :: acc)

/-- Model of Python `str(n)` for a natural number: its decimal digits. -/
def pyStr (n : Nat) : List Char :=
  pyStrAux (n + 1) n []

/-- Model of Python `list.index(v)` generalised over the membership test:
index of the first element satisfying `p`, or `none` (Python: ValueError). -/
def pyIndexAux {α : Type} (p : α → Bool) : List α → Nat → Option Nat
  | [], _ => none
  | x :: xs, k => if p x then some k else pyIndexAux p xs (k + 1)

/-! ## Day 2: enumerations (src/days/day_02.py) -/

/-- Enumerates which part of the challenge we are in (`ChallengePart`). -/
inductive ChallengePart
  | PART_1
  | PART_2
  deriving DecidableEq, BEq, Fintype

/-- Enumerates the options for a move from the opponent (`OpponentChoice`,
a StrEnum with values "A"/"B"/"C"). -/
inductive OpponentChoice
  | ROCK
  | PAPER
  | SCISSORS
  deriving DecidableEq, BEq, Fintype

/-- String value of each `OpponentChoice` member. -/
def OpponentChoice.value : OpponentChoice → String
  | .ROCK => "A"
  | .PAPER => "B"
  | .SCISSORS => "C"

/-- Python `.name` attribute of each `OpponentChoice` member. -/
def OpponentChoice.name : OpponentChoice → String
  | .ROCK => "ROCK"
  | .PAPER => "PAPER"
  | .SCISSORS => "SCISSORS"

/-- Iteration order of the enum, i.e. Python `list(OpponentChoice)`. -/
def OpponentChoice.members : List OpponentChoice :=
  [.ROCK, .PAPER, .SCISSORS]

/-- Model of `list(OpponentChoice).index(t)`: a StrEnum member compares equal
to the string `t` exactly when its value is `t`. -/
def OpponentChoice.index (t : String) : Option Nat :=
  pyIndexAux (fun m => m.value == t) OpponentChoice.members 0

/-- Enumerates the options for a move from the player (`PlayerChoice`,
a StrEnum with values "X"/"Y"/"Z"). -/
inductive PlayerChoice
  | ROCK
  | PAPER
  | SCISSORS
  deriving DecidableEq, BEq, Fintype

/-- String value of each `PlayerChoice` member. -/
def PlayerChoice.value : PlayerChoice → String
  | .ROCK => "X"
  | .PAPER => "Y"
  | .SCISSORS => "Z"

/-- Python `.name` attribute of each `PlayerChoice` member. -/
def PlayerChoice.name : PlayerChoice → String
  | .ROCK => "ROCK"
  | .PAPER => "PAPER"
  | .SCISSORS => "SCISSORS"

/-- Iteration order of the enum, i.e. Python `list(PlayerChoice)`. -/
def PlayerChoice.members : List PlayerChoice :=
  [.ROCK, .PAPER, .SCISSORS]

/-- Model of `list(PlayerChoice).index(t)`. -/
def PlayerChoice.index (t : String) : Option Nat :=
  pyIndexAux (fun m => m.value == t) PlayerChoice.members 0

/-- Enumerates the possible outcomes of a round (`RoundOutcome`, an IntEnum
whose values are the outcome scores 0/3/6). -/
inductive RoundOutcome
  | LOSS
  | DRAW
  | WIN
  deriving DecidableEq, BEq, Fintype

/-- Integer value of each `RoundOutcome` member (`LOSS = 0`, `DRAW = 3`,
`WIN = 6`). -/
def RoundOutcome.value : RoundOutcome → Int
  | .LOSS => 0
  | .DRAW => 3
  | .WIN => 6

/-- Enumerates the strategy the player follows per Part 2 (`PlayerStrategy`,
a StrEnum with values "X"/"Y"/"Z"). -/
inductive PlayerStrategy
  | LOSE
  | DRAW
  | WIN
  deriving DecidableEq, BEq, Fintype

/-- String value of each `PlayerStrategy` member. -/
def PlayerStrategy.value : PlayerStrategy → String
  | .LOSE => "X"
  | .DRAW => "Y"
  | .WIN => "Z"

/-- Iteration order of the enum, i.e. Python `list(PlayerStrategy)`. -/
def PlayerStrategy.members : List PlayerStrategy :=
  [.LOSE, .DRAW, .WIN]

/-- Model of `list(PlayerStrategy).index(t)`. -/
def PlayerStrategy.index (t : String) : Option Nat :=
  pyIndexAux (fun m => m.value == t) PlayerStrategy.members 0

/-- Outcome desired by each strategy, per the spec's reading of Part 2
("the outcome the player should create"): X = Lose, Y = Draw, Z = Win. -/
def PlayerStrategy.desiredOutcome : PlayerStrategy → RoundOutcome
  | .LOSE => RoundOutcome.LOSS
  | .DRAW => RoundOutcome.DRAW
  | .WIN => RoundOutcome.WIN

/-! ## Day 2: lookup tables and the Round type -/

/-- The 9-entry (opponent move, strategy) → player move table,
`OPPONENT_MOVE_STRATEGY_TO_PLAYER_MOVE_DICT`, in source order. -/
def OPPONENT_MOVE_STRATEGY_TO_PLAYER_MOVE_DICT :
    List ((OpponentChoice × PlayerStrategy) × PlayerChoice) :=
  [ ((OpponentChoice.ROCK, PlayerStrategy.DRAW), PlayerChoice.ROCK),
    ((OpponentChoice.PAPER, PlayerStrategy.DRAW), PlayerChoice.PAPER),
    ((OpponentChoice.SCISSORS, PlayerStrategy.DRAW), PlayerChoice.SCISSORS),
    ((OpponentChoice.ROCK, PlayerStrategy.WIN), PlayerChoice.PAPER),
    ((OpponentChoice.PAPER, PlayerStrategy.WIN), PlayerChoice.SCISSORS),
    ((OpponentChoice.SCISSORS, PlayerStrategy.WIN), PlayerChoice.ROCK),
    ((OpponentChoice.ROCK, PlayerStrategy.LOSE), PlayerChoice.SCISSORS),
    ((OpponentChoice.PAPER, PlayerStrategy.LOSE), PlayerChoice.ROCK),
    ((OpponentChoice.SCISSORS, PlayerStrategy.LOSE), PlayerChoice.PAPER) ]

/-- The selection-score table `PLAYER_SELECTION_TO_SCORE_DICT`. -/
def PLAYER_SELECTION_TO_SCORE_DICT : List (PlayerChoice × Int) :=
  [ (PlayerChoice.ROCK, 1),
    (PlayerChoice.PAPER, 2),
    (PlayerChoice.SCISSORS, 3) ]

/-- Contains the moves from the opponent and player (`Round`). -/
structure Round where
  opponent_choice : OpponentChoice
  player_choice : PlayerChoice
  deriving DecidableEq

/-- Model of `Round.determine_player_choice`: dictionary lookup in the
9-entry table; a missing key would raise LookupError, modelled as `none`. -/
def Round.determine_player_choice (opponent_choice : OpponentChoice)
    (player_strategy : PlayerStrategy) : Option PlayerChoice :=
  OPPONENT_MOVE_STRATEGY_TO_PLAYER_MOVE_DICT.lookup
    (opponent_choice, player_strategy)

/-- Model of `Round.determine_outcome`: draw when the `.name` attributes of
the two moves coincide, otherwise the player wins in exactly the three listed
combinations, and loses in every remaining case. -/
def Round.determine_outcome (r : Round) : RoundOutcome :=
  if r.player_choice.name == r.opponent_choice.name then
    RoundOutcome.DRAW
  else
    let player_wins :=
      [ [r.player_choice == PlayerChoice.ROCK,
         r.opponent_choice == OpponentChoice.SCISSORS].all id,
        [r.player_choice == PlayerChoice.PAPER,
         r.opponent_choice == OpponentChoice.ROCK].all id,
        [r.player_choice == PlayerChoice.SCISSORS,
         r.opponent_choice == OpponentChoice.PAPER].all id ].any id
    if player_wins then RoundOutcome.WIN else RoundOutcome.LOSS

/-- Model of `Round.compute_score`: outcome value plus the selection score
looked up in the given dictionary (KeyError modelled as `none`). -/
def Round.compute_score (r : Round)
    (selection_score_dict : List (PlayerChoice × Int)) : Option Int :=
  let outcome := r.determine_outcome
  (selection_score_dict.lookup r.player_choice).map
    (fun selection_score => outcome.value + selection_score)

/-- Model of `Round.from_string`: strip the line, split on the delimiter,
look the first token up in `list(OpponentChoice)` and the second token up in
`list(PlayerChoice)`; any IndexError or ValueError is modelled as `none`. -/
def Round.from_string (input_string split_string : String) : Option Round := do
  let moves := pysplit split_string (pystrip input_string)
  let t0 ← moves.get? 0
  let opponent_move_idx ← OpponentChoice.index t0
  let o ← OpponentChoice.members.get? opponent_move_idx
  let t1 ← moves.get? 1
  let player_move_idx ← PlayerChoice.index t1
  let p ← PlayerChoice.members.get? player_move_idx
  pure { opponent_choice := o, player_choice := p }

/-- Model of `Round.from_string_part_two`: the second token is a strategy,
and the player move is resolved through the 9-entry table. -/
def Round.from_string_part_two (input_string split_string : String) :
    Option Round := do
  let content := pysplit split_string (pystrip input_string)
  let t0 ← content.get? 0
  let opponent_move_idx ← OpponentChoice.index t0
  let opponent_choice ← OpponentChoice.members.get? opponent_move_idx
  let t1 ← content.get? 1
  let player_strategy_idx ← PlayerStrategy.index t1
  let player_strategy ← PlayerStrategy.members.get? player_strategy_idx
  let player_choice ←
    Round.determine_player_choice opponent_choice player_strategy
  pure { opponent_choice := opponent_choice, player_choice := player_choice }

/-- Models a series of rounds of a game of Rock Paper Scissors (`Game`). -/
structure Game where
  rounds : List Round

/-- Model of `Game.from_file` with the file contents already split into its
lines (`f.readlines()`); a failing line fails the whole construction. -/
def Game.from_lines (lines : List String) (split_string : String)
    (challenge_part : ChallengePart) : Option Game :=
  if challenge_part = ChallengePart.PART_1 then
    (lines.mapM (fun line => Round.from_string line split_string)).map Game.mk
  else
    (lines.mapM
      (fun line => Round.from_string_part_two line split_string)).map Game.mk

/-- Model of `Game.compute_score`: sum of the per-round scores. -/
def Game.compute_score (g : Game)
    (selection_score_dict : List (PlayerChoice × Int)) : Option Int :=
  (g.rounds.mapM (fun round_obj => Round.compute_score round_obj
    selection_score_dict)).map (fun round_scores => round_scores.sum)

/-! ## Spec-side scoring tables (written from the spec's words, for C5) -/

/-- Outcome-score table as stated in the spec: Loss 0, Draw 3, Win 6. -/
def outcome_score : RoundOutcome → Int
  | .LOSS => 0
  | .DRAW => 3
  | .WIN => 6

/-- Selection-score table as stated in the spec: Rock 1, Paper 2,
Scissors 3. -/
def selection_score : PlayerChoice → Int
  | .ROCK => 1
  | .PAPER => 2
  | .SCISSORS => 3

/-! ## Claims about the Day 2 scoring core -/

/-- Claim C1: for every opponent move and desired outcome, the player move
obtained from the 9-entry lookup table exists and satisfies
`determine_outcome (opponent, resolved) = desired outcome`: outcome-mode
resolution round-trips through the outcome classifier for all 9 pairs. -/
theorem c1_outcome_mode_round_trip :
    ∀ (o : OpponentChoice) (s : PlayerStrategy),
      ∃ p : PlayerChoice,
        Round.determine_player_choice o s = some p ∧
        (Round.mk o p).determine_outcome = s.desiredOutcome := by
  decide

/-- Claim C2: `determine_outcome` is total over all 9 move combinations and
returns Draw exactly on equal shapes, Win exactly on the three winning
pairings, and Loss exactly on the remaining pairings. -/
theorem c2_classify_outcome_cases :
    ∀ (o : OpponentChoice) (p : PlayerChoice),
      ((Round.mk o p).determine_outcome = RoundOutcome.DRAW ↔
        ((o = OpponentChoice.ROCK ∧ p = PlayerChoice.ROCK) ∨
         (o = OpponentChoice.PAPER ∧ p = PlayerChoice.PAPER) ∨
         (o = OpponentChoice.SCISSORS ∧ p = PlayerChoice.SCISSORS))) ∧
      ((Round.mk o p).determine_outcome = RoundOutcome.WIN ↔
        ((p = PlayerChoice.ROCK ∧ o = OpponentChoice.SCISSORS) ∨
         (p = PlayerChoice.PAPER ∧ o = OpponentChoice.ROCK) ∨
         (p = PlayerChoice.SCISSORS ∧ o = OpponentChoice.PAPER))) ∧
      ((Round.mk o p).determine_outcome = RoundOutcome.LOSS ↔
        (¬((o = OpponentChoice.ROCK ∧ p = PlayerChoice.ROCK) ∨
           (o = OpponentChoice.PAPER ∧ p = PlayerChoice.PAPER) ∨
           (o = OpponentChoice.SCISSORS ∧ p = PlayerChoice.SCISSORS)) ∧
         ¬((p = PlayerChoice.ROCK ∧ o = OpponentChoice.SCISSORS) ∨
           (p = PlayerChoice.PAPER ∧ o = OpponentChoice.ROCK) ∨
           (p = PlayerChoice.SCISSORS ∧ o = OpponentChoice.PAPER)))) := by
  decide

/-- Claim C5: with the standard selection table, `compute_score` equals the
outcome score of the classified outcome plus the selection score of the
player move, and this value lies in the interval [1, 9], for every round. -/
theorem c5_score_round_decomposition_and_bounds :
    ∀ (o : OpponentChoice) (p : PlayerChoice),
      Round.compute_score (Round.mk o p) PLAYER_SELECTION_TO_SCORE_DICT =
        some (outcome_score (Round.mk o p).determine_outcome +
          selection_score p) ∧
      1 ≤ outcome_score (Round.mk o p).determine_outcome +
          selection_score p ∧
      outcome_score (Round.mk o p).determine_outcome +
          selection_score p ≤ 9 := by
  decide

/-- Claim C9: for every (opponent move, strategy) pair the lookup in the
9-entry table succeeds, so the LookupError branch of
`determine_player_choice` is unreachable: the table is total over the full
3-by-3 domain. -/
theorem c9_strategy_table_total :
    ∀ (o : OpponentChoice) (s : PlayerStrategy),
      (Round.determine_player_choice o s).isSome = true := by
  decide

/-! ## Helper lemmas about the index lookups -/

/-- Unfolding of `OpponentChoice.index` into an if-chain on the token. -/
theorem opp_index_unfold (t : String) :
    OpponentChoice.index t =
      (if "A" == t then some 0 else if "B" == t then some 1
       else if "C" == t then some 2 else none) := rfl

/-- Unfolding of `PlayerChoice.index` into an if-chain on the token. -/
theorem player_index_unfold (t : String) :
    PlayerChoice.index t =
      (if "X" == t then some 0 else if "Y" == t then some 1
       else if "Z" == t then some 2 else none) := rfl

/-- The do-notation of `Round.from_string` as an explicit bind chain. -/
theorem from_string_bind (s d : String) :
    Round.from_string s d =
      ((pysplit d (pystrip s)).get? 0).bind (fun t0 =>
        (OpponentChoice.index t0).bind (fun i =>
          (OpponentChoice.members.get? i).bind (fun o =>
            ((pysplit d (pystrip s)).get? 1).bind (fun t1 =>
              (PlayerChoice.index t1).bind (fun j =>
                (PlayerChoice.members.get? j).bind (fun p =>
                  some (Round.mk o p))))))) := by
  dsimp only [Round.from_string]
  cases (pysplit d (pystrip s)).get? 0 with
  | none => rfl
  | some t0 =>
    cases OpponentChoice.index t0 with
    | none => rfl
    | some i =>
      cases OpponentChoice.members.get? i with
      | none => rfl
      | some o =>
        cases (pysplit d (pystrip s)).get? 1 with
        | none => rfl
        | some t1 =>
          cases PlayerChoice.index t1 with
          | none => rfl
          | some j => cases PlayerChoice.members.get? j <;> rfl

/-- A successful `list(OpponentChoice).index` always yields an index inside
the member list. -/
theorem opp_get_of_index (t : String) (i : Nat)
    (h : OpponentChoice.index t = some i) :
    ∃ o, OpponentChoice.members.get? i = some o := by
  rw [opp_index_unfold] at h
  by_cases hA : ("A" == t) <;> by_cases hB : ("B" == t) <;>
    by_cases hC : ("C" == t) <;> simp [hA, hB, hC] at h <;>
    (subst h; exact ⟨_, rfl⟩)

/-- A successful `list(PlayerChoice).index` always yields an index inside
the member list. -/
theorem player_get_of_index (t : String) (j : Nat)
    (h : PlayerChoice.index t = some j) :
    ∃ p, PlayerChoice.members.get? j = some p := by
  rw [player_index_unfold] at h
  by_cases hX : ("X" == t) <;> by_cases hY : ("Y" == t) <;>
    by_cases hZ : ("Z" == t) <;> simp [hX, hY, hZ] at h <;>
    (subst h; exact ⟨_, rfl⟩)

/-! ## Claims about Day 2 parsing and the worked example -/

/-- Claim C3 counterexample: the line "A Y Z" splits into 3 tokens (not 2),
yet choice-mode parsing succeeds, contradicting the claim that parsing fails
for every line with a number of tokens different from 2. -/
theorem c3_counterexample_three_tokens :
    (pysplit " " (pystrip "A Y Z")).length = 3 ∧
    Round.from_string "A Y Z" " " =
      some (Round.mk OpponentChoice.ROCK PlayerChoice.PAPER) := by
  decide

/-- Claim C3 (amended): choice-mode parsing of a line fails exactly when the
first token is missing or outside {A, B, C}, or the second token is missing
or outside {X, Y, Z}; tokens after the second are ignored, so a line that
splits into more than 2 tokens parses successfully when its first two tokens
are valid. In particular every line with fewer than 2 tokens fails. -/
theorem c3_parse_failure_characterisation (s d : String) :
    Round.from_string s d = none ↔
      (((pysplit d (pystrip s)).get? 0).bind OpponentChoice.index = none ∨
       ((pysplit d (pystrip s)).get? 1).bind PlayerChoice.index = none) := by
  rw [from_string_bind]
  cases h0 : (pysplit d (pystrip s)).get? 0 with
  | none => simp
  | some t0 =>
    simp only [Option.some_bind]
    cases hi : OpponentChoice.index t0 with
    | none => simp
    | some i =>
      simp only [Option.some_bind]
      obtain ⟨o, ho⟩ := opp_get_of_index t0 i hi
      rw [ho]
      simp only [Option.some_bind]
      cases h1 : (pysplit d (pystrip s)).get? 1 with
      | none => simp
      | some t1 =>
        simp only [Option.some_bind]
        cases hj : PlayerChoice.index t1 with
        | none => simp
        | some j =>
          simp only [Option.some_bind]
          obtain ⟨p, hp⟩ := player_get_of_index t1 j hj
          rw [hp]
          simp

/-- Claim C6: on the example lines "A Y", "B X", "C Z" with a single-space
delimiter, choice-mode parsing and scoring yields per-round scores 8, 1, 6
and total 15, and outcome-mode parsing of the same lines yields total 12. -/
theorem c6_worked_example :
    ((Game.from_lines ["A Y", "B X", "C Z"] " " ChallengePart.PART_1).map
      (fun g => g.rounds.map
        (fun r => Round.compute_score r PLAYER_SELECTION_TO_SCORE_DICT))) =
      some [some 8, some 1, some 6] ∧
    ((Game.from_lines ["A Y", "B X", "C Z"] " " ChallengePart.PART_1).bind
      (fun g => Game.compute_score g PLAYER_SELECTION_TO_SCORE_DICT)) =
      some 15 ∧
    ((Game.from_lines ["A Y", "B X", "C Z"] " " ChallengePart.PART_2).bind
      (fun g => Game.compute_score g PLAYER_SELECTION_TO_SCORE_DICT)) =
      some 12 := by
  decide

/-! ## Day 1: calorie grouping (src/days/day_01.py) -/

abbrev ElfName := String

abbrev SnackCalories := Int

/-- The constant `MIN_PADDING_AMOUNT`. -/
def MIN_PADDING_AMOUNT : Nat := 2

/-- Zero padding of a digit string to a given width, as performed by the
format string `f"elf-{idx:>0{padding_amount}}"`: right-align and fill with
zeros; a longer string is left unchanged. -/
def zfill (w : Nat) (cs : List Char) : List Char :=
  List.replicate (w - cs.length) '0' ++ cs

/-- Model of `create_elf_name`: the elf label built by the format string
`f"elf-{idx:>0{padding_amount}}"`. -/
def create_elf_name (idx padding_amount : Nat) : ElfName :=
  String.mk ("elf-".data ++ zfill padding_amount (pyStr idx))

/-- Model of `clean_string_per_elf`: strip the group, split on the delimiter
and convert every token with `int`; a ValueError on any token is swallowed
(a message is printed) and the function returns None, modelled as `none`. -/
def clean_string_per_elf (calorie_string delimiter : String) :
    Option (List SnackCalories) :=
  (pysplit delimiter (pystrip calorie_string)).mapM pyint

/-- Model of `parse_input_file` with the file contents passed directly:
split on the doubled delimiter, clean each group, and build the dict from
elf labels (1-based `enumerate`) to the cleaned value of each group. -/
def parse_input_file (file_contents line_delimiter : String) :
    List (ElfName × Option (List SnackCalories)) :=
  let list_of_list_of_calories_per_elf :=
    (pysplit (line_delimiter ++ line_delimiter) file_contents).map
      (fun calorie_string => clean_string_per_elf calorie_string line_delimiter)
  let num_elves := list_of_list_of_calories_per_elf.length
  let padding_amount := max ((pyStr num_elves).length + 1) MIN_PADDING_AMOUNT
  (List.enumFrom 1 list_of_list_of_calories_per_elf).map
    (fun p => (create_elf_name p.1 padding_amount, p.2))

/-- Model of Python `max(iterable, key=f)` on a non-empty iterable given as
head and tail: fold left, replacing the current best only on a strictly
larger key, so the first of several maximal elements wins. -/
def pymax {α : Type} (f : α → Int) (x : α) (xs : List α) : α :=
  xs.foldl (fun acc y => if f acc < f y then y else acc) x

/-- Model of `identify_elf_with_highest_calories`: Python `max` over the
dict items keyed by the snack sum; `max` on an empty iterable raises
ValueError, modelled as `none`. -/
def identify_elf_with_highest_calories
    (elf_to_snacks_dict : List (ElfName × List SnackCalories)) :
    Option (ElfName × SnackCalories) :=
  match elf_to_snacks_dict with
  | [] => none
  | x :: xs =>
    let best := pymax (fun item => item.2.sum) x xs
    some (best.1, best.2.sum)

/-! ## Claims C10 and the C4 counterexample -/

/-- Claim C10: applied to an empty mapping, the max-group query does not
return a pair but fails (Python `max` raises ValueError on zero items); the
operation is only defined for non-empty mappings. -/
theorem c10_empty_mapping_fails :
    identify_elf_with_highest_calories [] = none := rfl

/-- Claim C4 counterexample: for the contents "abc\n\n2" the first group
"abc" fails integer conversion, yet its key "elf-01" does appear in the
result of `parse_input_file` (bound to None), contradicting the claim that
no key for the affected group appears. -/
theorem c4_counterexample_key_present :
    clean_string_per_elf "abc" "\n" = none ∧
    (parse_input_file "abc\n\n2" "\n").get? 0 = some ("elf-01", none) ∧
    (parse_input_file "abc\n\n2" "\n").get? 1 = some ("elf-02", some [2]) := by
  decide

/-! ## Digit-count lemmas for the label padding -/

/-- Number of decimal digits of a natural number (proof-side companion of
`pyStr`). -/
def numDigitsF (n : Nat) : Nat :=
  if h : n < 10 then 1 else numDigitsF (n / 10) + 1
decreasing_by
  exact Nat.div_lt_self (by omega) (by omega)

/-- Every natural number has at least one decimal digit. -/
theorem numDigitsF_pos (n : Nat) : 1 ≤ numDigitsF n := by
  unfold numDigitsF
  split <;> omega

/-- With sufficient fuel, `pyStrAux` produces exactly the digits of `n` in
front of the accumulator. -/
theorem pyStrAux_length (fuel : Nat) :
    ∀ (n : Nat) (acc : List Char), n < fuel →
      (pyStrAux fuel n acc).length = numDigitsF n + acc.length := by
  induction fuel with
  | zero => intro n acc h; omega
  | succ fuel ih =>
    intro n acc h
    by_cases hn : n < 10
    · simp only [pyStrAux, if_pos hn, List.length_cons]
      unfold numDigitsF
      rw [dif_pos hn]
      omega
    · have hdiv : n / 10 < n := Nat.div_lt_self (by omega) (by omega)
      simp only [pyStrAux, if_neg hn]
      rw [ih (n / 10) _ (by omega)]
      conv_rhs => rw [numDigitsF]
      rw [dif_neg hn]
      simp only [List.length_cons]
      omega

/-- The length of `str(n)` is the digit count of `n`. -/
theorem pyStr_length (n : Nat) : (pyStr n).length = numDigitsF n := by
  rw [pyStr, pyStrAux_length (n + 1) n [] (by omega)]
  simp

/-- The decimal digit count is monotone. -/
theorem numDigitsF_mono : ∀ (n i : Nat), i ≤ n → numDigitsF i ≤ numDigitsF n := by
  intro n
  induction n using Nat.strong_induction_on with
  | _ n ih =>
    intro i h
    by_cases hn : n < 10
    · have hi : i < 10 := by omega
      unfold numDigitsF
      rw [dif_pos hi, dif_pos hn]
    · by_cases hi : i < 10
      · have h1 : numDigitsF i = 1 := by unfold numDigitsF; rw [dif_pos hi]
        rw [h1]; exact numDigitsF_pos n
      · have hrec := ih (n / 10) (Nat.div_lt_self (by omega) (by omega))
          (i / 10) (Nat.div_le_div_right h)
        unfold numDigitsF
        rw [dif_neg hi, dif_neg hn]
        omega

/-- Zero-padding to width `w` yields length `max w (original length)`. -/
theorem zfill_length (w : Nat) (cs : List Char) :
    (zfill w cs).length = max w cs.length := by
  simp [zfill]
  omega

/-- The entry of `parse_input_file` at position `i` is the label for the
1-based index `1 + i` paired with the cleaned `i`-th group. -/
theorem parse_input_file_get? (content delim : String) (i : Nat) :
    (parse_input_file content delim).get? i =
      ((pysplit (delim ++ delim) content).get? i).map (fun g =>
        (create_elf_name (1 + i)
          (max ((pyStr (pysplit (delim ++ delim) content).length).length + 1)
            MIN_PADDING_AMOUNT),
         clean_string_per_elf g delim)) := by
  simp only [parse_input_file, List.get?_eq_getElem?, List.getElem?_map,
    List.getElem?_enumFrom, List.length_map]
  cases (pysplit (delim ++ delim) content)[i]? <;> rfl

/-! ## Claims C4 (amended), C7 and C8 -/

/-- Claim C4 (amended): when a group fails integer conversion, the error is
swallowed and parsing continues, but the affected group is not absent from
the returned mapping: its key is present, bound to None instead of a list
of integers. -/
theorem c4_failed_group_key_maps_to_none (content delim : String) (i : Nat)
    (g : String) (n w : Nat)
    (hg : (pysplit (delim ++ delim) content).get? i = some g)
    (hfail : clean_string_per_elf g delim = none)
    (hn : n = (pysplit (delim ++ delim) content).length)
    (hw : w = max ((pyStr n).length + 1) MIN_PADDING_AMOUNT) :
    (parse_input_file content delim).get? i =
      some (create_elf_name (1 + i) w, none) := by
  rw [parse_input_file_get?, hg, ← hn, ← hw]
  simp only [Option.map_some']
  rw [hfail]

/-- Witness for C4 (amended) at the contents "abc\n\n2": group "abc" fails
conversion and its key "elf-01" is present, mapped to None. -/
theorem c4_failed_group_key_maps_to_none_witness :
    clean_string_per_elf "abc" "\n" = none ∧
    (parse_input_file "abc\n\n2" "\n").get? 0 = some ("elf-01", none) := by
  constructor
  · decide
  · have h := c4_failed_group_key_maps_to_none "abc\n\n2" "\n" 0 "abc" 2 2
      (by decide) (by decide) (by decide) (by decide)
    rw [h]
    rfl

/-- One fold step of `pymax` absorbed into the initial element. -/
theorem pymax_cons {α : Type} (f : α → Int) (x a : α) (t : List α) :
    pymax f x (a :: t) = pymax f (if f x < f a then a else x) t := rfl

/-- The key of the initial element never exceeds the key of the maximum. -/
theorem le_pymax {α : Type} (f : α → Int) :
    ∀ (xs : List α) (x : α), f x ≤ f (pymax f x xs) := by
  intro xs
  induction xs with
  | nil => intro x; exact le_refl _
  | cons a t ih =>
    intro x
    rw [pymax_cons]
    by_cases h : f x < f a
    · rw [if_pos h]; exact le_trans (le_of_lt h) (ih a)
    · rw [if_neg h]; exact ih x

/-- No element of the iterable has a key above the maximum returned by
`pymax`. -/
theorem mem_le_pymax {α : Type} (f : α → Int) :
    ∀ (xs : List α) (x y : α), y ∈ x :: xs → f y ≤ f (pymax f x xs) := by
  intro xs
  induction xs with
  | nil =>
    intro x y hy
    rw [List.mem_singleton] at hy
    subst hy
    exact le_refl _
  | cons a t ih =>
    intro x y hy
    rw [pymax_cons]
    rcases List.mem_cons.mp hy with rfl | hy2
    · refine le_trans ?_ (le_pymax f t _)
      by_cases h : f y < f a
      · rw [if_pos h]; exact le_of_lt h
      · rw [if_neg h]
    · rcases List.mem_cons.mp hy2 with rfl | hy3
      · refine le_trans ?_ (le_pymax f t _)
        by_cases h : f x < f y
        · rw [if_pos h]
        · rw [if_neg h]; exact le_of_not_lt h
      · exact ih _ y (List.mem_cons_of_mem _ hy3)

/-- The element returned by `pymax` is the first maximal one: everything
before it in the iterable has a strictly smaller key. -/
theorem pymax_first {α : Type} (f : α → Int) :
    ∀ (xs : List α) (x : α), ∃ l₁ l₂,
      x :: xs = l₁ ++ pymax f x xs :: l₂ ∧
      ∀ y ∈ l₁, f y < f (pymax f x xs) := by
  intro xs
  induction xs with
  | nil => intro x; exact ⟨[], [], rfl, by simp⟩
  | cons a t ih =>
    intro x
    rw [pymax_cons]
    by_cases h : f x < f a
    · rw [if_pos h]
      obtain ⟨l₁, l₂, hdec, hlt⟩ := ih a
      refine ⟨x :: l₁, l₂, ?_, ?_⟩
      · rw [List.cons_append, ← hdec]
      · intro y hy
        rcases List.mem_cons.mp hy with rfl | hy2
        · exact lt_of_lt_of_le h (le_pymax f t a)
        · exact hlt y hy2
    · rw [if_neg h]
      obtain ⟨l₁, l₂, hdec, hlt⟩ := ih x
      cases l₁ with
      | nil =>
        simp only [List.nil_append] at hdec
        rw [List.cons_eq_cons] at hdec
        obtain ⟨h1, h2⟩ := hdec
        refine ⟨[], a :: l₂, ?_, by simp⟩
        rw [List.nil_append, ← h1, h2]
      | cons b l₁t =>
        rw [List.cons_append, List.cons_eq_cons] at hdec
        obtain ⟨hb, ht⟩ := hdec
        have hxmem : x ∈ b :: l₁t := by
          rw [hb]
          exact List.mem_cons_self b l₁t
        have hxlt : f x < f (pymax f x t) := hlt x hxmem
        refine ⟨x :: a :: l₁t, l₂, ?_, ?_⟩
        · rw [List.cons_append, List.cons_append, ← ht]
        · intro y hy
          rcases List.mem_cons.mp hy with rfl | hy2
          · exact hxlt
          · rcases List.mem_cons.mp hy2 with rfl | hy3
            · exact lt_of_le_of_lt (le_of_not_lt h) hxlt
            · exact hlt y (List.mem_cons_of_mem b hy3)

/-- Claim C7: on every non-empty mapping, the max-group query returns the
pair (label, total) of a group of the mapping whose total is the sum of that
group's integers, the total is at least the sum of every group, and among
groups sharing the maximal sum the first in iteration order is returned
(everything before the returned group is strictly smaller). -/
theorem c7_max_group_correct (x : ElfName × List SnackCalories)
    (xs : List (ElfName × List SnackCalories)) :
    ∃ (name : ElfName) (snacks : List SnackCalories)
      (l₁ l₂ : List (ElfName × List SnackCalories)),
      identify_elf_with_highest_calories (x :: xs) = some (name, snacks.sum) ∧
      x :: xs = l₁ ++ (name, snacks) :: l₂ ∧
      (∀ p ∈ x :: xs, p.2.sum ≤ snacks.sum) ∧
      (∀ p ∈ l₁, p.2.sum < snacks.sum) := by
  obtain ⟨l₁, l₂, hdec, hlt⟩ := pymax_first (fun p => p.2.sum) xs x
  refine ⟨(pymax (fun p : ElfName × List SnackCalories => p.2.sum) x xs).1,
    (pymax (fun p : ElfName × List SnackCalories => p.2.sum) x xs).2,
    l₁, l₂, ?_, ?_, ?_, ?_⟩
  · rfl
  · rw [Prod.mk.eta]
    exact hdec
  · intro p hp
    exact mem_le_pymax (fun q => q.2.sum) xs x p hp
  · intro p hp
    exact hlt p hp

/-- Claim C8: for `n` parsed groups, the label of the group at 1-based index
`i` (with `1 ≤ i ≤ n`) is "elf-" followed by the decimal digits of `i`
zero-padded to exactly `max(2, digit-count(n) + 1)` characters. -/
theorem c8_label_zero_padded (content delim : String) (i n w : Nat)
    (h1 : 1 ≤ i) (h2 : i ≤ n)
    (hn : n = (pysplit (delim ++ delim) content).length)
    (hw : w = max ((pyStr n).length + 1) MIN_PADDING_AMOUNT) :
    (∃ v, (parse_input_file content delim).get? (i - 1) =
        some (String.mk ("elf-".data ++ zfill w (pyStr i)), v)) ∧
    (zfill w (pyStr i)).length = w := by
  constructor
  · have hi : i - 1 < (pysplit (delim ++ delim) content).length := by omega
    obtain ⟨g, hg⟩ :
        ∃ g, (pysplit (delim ++ delim) content).get? (i - 1) = some g := by
      rw [List.get?_eq_getElem?]
      exact ⟨_, List.getElem?_eq_getElem hi⟩
    refine ⟨clean_string_per_elf g delim, ?_⟩
    rw [parse_input_file_get?, hg]
    have h1i : 1 + (i - 1) = i := by omega
    rw [h1i, ← hn, ← hw]
    rfl
  · rw [zfill_length]
    have hmono := numDigitsF_mono n i h2
    have hli : (pyStr i).length = numDigitsF i := pyStr_length i
    have hln : (pyStr n).length = numDigitsF n := pyStr_length n
    rw [hw, MIN_PADDING_AMOUNT] at *
    omega

/-- Witness for C8 on a 5-group input: the padding width is
`max(2, 1 + 1) = 2` and the label at 1-based index 4 is "elf-04". -/
theorem c8_label_zero_padded_witness :
    (∃ v, (parse_input_file "1\n\n2\n\n3\n\n4\n\n5" "\n").get? 3 =
        some ("elf-04", v)) ∧
    (zfill 2 (pyStr 4)).length = 2 := by
  have h := c8_label_zero_padded "1\n\n2\n\n3\n\n4\n\n5" "\n" 4 5 2 (by decide)
    (by decide) (by decide) (by decide)
  obtain ⟨⟨v, hv⟩, hl⟩ := h
  refine ⟨⟨v, ?_⟩, hl⟩
  rw [hv]
  rfl
